import Mathlib

/-!
# Verification of the Cypherlink encrypted file-storage gateway

This development is a shallow embedding of `src/server.js`: the cipher codec
(`encryptFile` / `decryptFile`), the best-effort audit recorder
(`logActivity`), and the four HTTP handlers (upload, download, list, delete)
modelled as pure functions over an explicit state of the external AWS
collaborators (S3 bucket, DynamoDB tables, CloudWatch log stream).

Byte buffers are `List Nat` (each entry a byte value).  Nondeterministic
inputs of the source (`crypto.randomBytes(16)`, `uuidv4()`, `new Date()`)
are passed in as explicit parameters.  Failures of the external AWS calls
are injected through a `Faults` record of per-call flags; a JavaScript
`throw` from an AWS call is an `Except.error` from the corresponding model
function, and a `try`/`catch` block is a `match` on that `Except`.
-/

namespace Cypherlink

/-! ## Cipher codec (`server.js` lines 70-91)

`crypto.scryptSync` and the AES-256-CTR keystream are Node library
primitives, not repository code.  They are modelled as deterministic
stand-in functions: every claim about the repository depends only on the
facts that key derivation is a deterministic function of the passphrase and
salt, and that CTR mode XORs the data byte-wise with a keystream that
depends only on the key, the initialization value and the byte position
(so it is length-preserving and self-inverse). -/

/-- One mixing step of the deterministic stand-in primitives. -/
def mix (a b : Nat) : Nat := (a * 131 + b + 7) % 256

/-- Deterministic stand-in for Node `crypto.scryptSync(password, salt, keylen)`:
a fixed-length key derived from the passphrase and the salt. -/
def scryptSync (password salt : String) (keylen : Nat) : List Nat :=
  let seed := ((password ++ ":" ++ salt).data.map Char.toNat).foldl mix 17
  (List.range keylen).map (fun i => mix seed i)

/-- Deterministic stand-in for the AES-256-CTR keystream: byte `i` of the
stream determined by the derived key and the initialization value. -/
def ctrKeystreamByte (key iv : List Nat) (i : Nat) : Nat :=
  mix (key.foldl mix (iv.foldl mix 29)) i

/-- The first `n` bytes of the CTR keystream for `key` and `iv`. -/
def ctrKeystream (key iv : List Nat) (n : Nat) : List Nat :=
  (List.range n).map (ctrKeystreamByte key iv)

/-- The CTR-mode stream transform (`cipher.update`/`cipher.final` for
`aes-256-ctr`): XOR the data with the keystream.  Encryption and decryption
are the same transform. -/
def ctrTransform (key iv data : List Nat) : List Nat :=
  List.zipWith Nat.xor data (ctrKeystream key iv data.length)

/-- `encryptFile(buffer, password)` from `server.js` lines 71-80: derive a
32-byte key via scrypt with the constant salt `'salt'`, and return
`iv ++ ciphertext`.  The fresh random 16-byte `iv` produced by
`crypto.randomBytes(16)` in the source is passed in as an explicit
parameter. -/
def encryptFile (buffer : List Nat) (password : String) (iv : List Nat) : List Nat :=
  let key := scryptSync password "salt" 32
  iv ++ ctrTransform key iv buffer

/-- Error raised by the Node crypto layer: `crypto.createDecipheriv` for
`aes-256-ctr` rejects an initialization value that is not exactly 16 bytes
(`ERR_CRYPTO_INVALID_IV`), which the spec's taxonomy calls
`DecryptionError`. -/
inductive CryptoError where
  | invalidIV
deriving Repr, DecidableEq

/-- `decryptFile(encryptedBuffer, password)` from `server.js` lines 83-91:
split off the leading 16 bytes as the initialization value (`Buffer.slice`
truncates silently, so a short blob yields a short iv, which
`createDecipheriv` then rejects), re-derive the key, and run the inverse
stream transform on the remainder. -/
def decryptFile (encryptedBuffer : List Nat) (password : String) :
    Except CryptoError (List Nat) :=
  let key := scryptSync password "salt" 32
  let iv := encryptedBuffer.take 16
  let encryptedContent := encryptedBuffer.drop 16
  if iv.length = 16 then
    Except.ok (ctrTransform key iv encryptedContent)
  else
    Except.error CryptoError.invalidIV

/-! ## State of the external AWS collaborators

S3 objects and DynamoDB items are association lists keyed by strings; a
DynamoDB `put` replaces any item with the same key, `delete` removes it. -/

/-- A stored file's metadata item in the DynamoDB `FileMetadata` table
(`server.js` lines 113-123). -/
structure FileRecord where
  fileId : String
  fileName : String
  contentType : String
  size : Nat
  uploadedAt : String
  encrypted : Bool
deriving Repr, DecidableEq

/-- The action-specific context passed to `logActivity`; the source
serializes this mapping with `JSON.stringify`. -/
structure LogDetails where
  fileId : Option String
  fileName : Option String
  size : Option Nat
  count : Option Nat
deriving Repr, DecidableEq

/-- An item of the DynamoDB `ActivityLogs` table (`server.js` lines 56-64). -/
structure LogEntry where
  logId : String
  timestamp : String
  action : String
  details : LogDetails
deriving Repr, DecidableEq

/-- A message sent to the CloudWatch log stream (`server.js` lines 40-49):
the serialized action, details and timestamp. -/
structure CloudWatchMessage where
  action : String
  details : LogDetails
  timestamp : String
deriving Repr, DecidableEq

/-- The combined state of the external stores: the S3 bucket (keys to byte
blobs), the DynamoDB `FileMetadata` table, the DynamoDB `ActivityLogs`
table, and the CloudWatch log stream. -/
structure AwsState where
  s3Objects : List (String × List Nat)
  fileMetadata : List (String × FileRecord)
  activityLogs : List LogEntry
  cloudWatch : List CloudWatchMessage
deriving Repr, DecidableEq

/-- An error from an external AWS call (a rejected promise in the source). -/
inductive AwsError where
  | serviceError
  | noSuchKey
deriving Repr, DecidableEq

/-- Per-call fault-injection flags: `true` means the corresponding external
AWS call fails (its promise rejects) during the modelled request. -/
structure Faults where
  s3UploadFails : Bool
  s3GetFails : Bool
  s3DeleteFails : Bool
  dynamoGetFails : Bool
  dynamoPutFails : Bool
  dynamoDeleteFails : Bool
  dynamoScanFails : Bool
  cloudWatchFails : Bool
  dynamoLogFails : Bool
deriving Repr, DecidableEq

/-- The fault assignment in which every external call succeeds. -/
def noFaults : Faults :=
  ⟨false, false, false, false, false, false, false, false, false⟩

/-- Replace-style insert into an association list (DynamoDB `put` semantics:
an item with the same primary key is overwritten). -/
def putAssoc {α : Type} (k : String) (v : α) (l : List (String × α)) :
    List (String × α) :=
  (k, v) :: l.filter (fun p => p.1 != k)

/-- Remove a key from an association list (DynamoDB `delete` / S3
`deleteObject` semantics). -/
def removeAssoc {α : Type} (k : String) (l : List (String × α)) :
    List (String × α) :=
  l.filter (fun p => p.1 != k)

/-- One attempted access to the blob store or the metadata store / log
infrastructure, recorded in the order the handler issues the calls. -/
inductive StoreAccess where
  | s3Put (key : String)
  | s3Get (key : String)
  | s3Delete (key : String)
  | dynamoGet (table key : String)
  | dynamoPut (table : String)
  | dynamoDelete (table key : String)
  | dynamoScan (table : String)
  | cloudWatchPut
deriving Repr, DecidableEq

/-! ## Modelled external AWS calls -/

/-- `s3.upload({...})`: store the blob under `key`, or reject. -/
def s3Upload (fails : Bool) (objects : List (String × List Nat))
    (key : String) (body : List Nat) :
    Except AwsError (List (String × List Nat)) :=
  if fails then Except.error AwsError.serviceError
  else Except.ok (putAssoc key body objects)

/-- `s3.getObject({...})`: return the blob at `key`; a missing key rejects
with `NoSuchKey`. -/
def s3GetObject (fails : Bool) (objects : List (String × List Nat))
    (key : String) : Except AwsError (List Nat) :=
  if fails then Except.error AwsError.serviceError
  else
    match objects.lookup key with
    | some body => Except.ok body
    | none => Except.error AwsError.noSuchKey

/-- `s3.deleteObject({...})`: remove the key (deleting a missing key
succeeds), or reject. -/
def s3DeleteObject (fails : Bool) (objects : List (String × List Nat))
    (key : String) : Except AwsError (List (String × List Nat)) :=
  if fails then Except.error AwsError.serviceError
  else Except.ok (removeAssoc key objects)

/-- `dynamoDB.get` on the `FileMetadata` table: a point lookup; an absent
item resolves with no `Item` field (`Except.ok none`). -/
def dynamoGetFile (fails : Bool) (metadata : List (String × FileRecord))
    (fileId : String) : Except AwsError (Option FileRecord) :=
  if fails then Except.error AwsError.serviceError
  else Except.ok (metadata.lookup fileId)

/-- `dynamoDB.put` on the `FileMetadata` table. -/
def dynamoPutFile (fails : Bool) (metadata : List (String × FileRecord))
    (record : FileRecord) : Except AwsError (List (String × FileRecord)) :=
  if fails then Except.error AwsError.serviceError
  else Except.ok (putAssoc record.fileId record metadata)

/-- `dynamoDB.delete` on the `FileMetadata` table. -/
def dynamoDeleteFile (fails : Bool) (metadata : List (String × FileRecord))
    (fileId : String) : Except AwsError (List (String × FileRecord)) :=
  if fails then Except.error AwsError.serviceError
  else Except.ok (removeAssoc fileId metadata)

/-- `dynamoDB.scan` on the `FileMetadata` table: all items. -/
def dynamoScanFiles (fails : Bool) (metadata : List (String × FileRecord)) :
    Except AwsError (List FileRecord) :=
  if fails then Except.error AwsError.serviceError
  else Except.ok (metadata.map Prod.snd)

/-- `cloudWatchLogs.putLogEvents({...})`: append one message to the log
stream, or reject. -/
def cwPutLogEvents (fails : Bool) (stream : List CloudWatchMessage)
    (msg : CloudWatchMessage) : Except AwsError (List CloudWatchMessage) :=
  if fails then Except.error AwsError.serviceError
  else Except.ok (stream ++ [msg])

/-- `dynamoDB.put` on the `ActivityLogs` table. -/
def dynamoPutLog (fails : Bool) (logs : List LogEntry) (entry : LogEntry) :
    Except AwsError (List LogEntry) :=
  if fails then Except.error AwsError.serviceError
  else Except.ok (logs ++ [entry])

/-! ## Audit recorder (`server.js` lines 34-68) -/

/-- `logActivity(action, details)`: two independent best-effort writes, the
CloudWatch `putLogEvents` and the DynamoDB `ActivityLogs` put, each wrapped
in its own `try`/`catch` whose `catch` arm only calls `console.error` — so
a failure of either write leaves the state from that write untouched and
never propagates.  The generated `logId` and timestamp are parameters.
Returns the resulting state and the trace of attempted calls. -/
def logActivity (f : Faults) (logId timestamp : String) (action : String)
    (details : LogDetails) (st : AwsState) : AwsState × List StoreAccess :=
  let st1 :=
    match cwPutLogEvents f.cloudWatchFails st.cloudWatch
        ⟨action, details, timestamp⟩ with
    | Except.ok stream => { st with cloudWatch := stream }
    | Except.error _ => st
  let st2 :=
    match dynamoPutLog f.dynamoLogFails st1.activityLogs
        ⟨logId, timestamp, action, details⟩ with
    | Except.ok logs => { st1 with activityLogs := logs }
    | Except.error _ => st1
  (st2, [StoreAccess.cloudWatchPut, StoreAccess.dynamoPut "ActivityLogs"])

/-! ## HTTP handlers (`server.js` lines 94-296)

Each handler is a function from its request inputs and the current
`AwsState` to a response, the resulting state, and the trace of attempted
external calls.  The `try`/`catch` wrapping each handler body maps a thrown
error to the 500 response. -/

/-- JavaScript truthiness test on an optional string field: `!x` is `true`
when the field is absent or the empty string. -/
def jsFalsy : Option String → Bool
  | none => true
  | some s => s.isEmpty

/-- JavaScript `x || d` on an optional string field. -/
def jsOr (x : Option String) (d : String) : String :=
  match x with
  | none => d
  | some s => if s.isEmpty then d else s

/-- A file parsed by multer's memory storage: `file.size` is the byte
length of `file.buffer`. -/
structure UploadedFile where
  originalname : String
  mimetype : String
  buffer : List Nat
deriving Repr, DecidableEq

/-- `file.size` as provided by multer: the buffer's byte length. -/
def UploadedFile.size (file : UploadedFile) : Nat := file.buffer.length

/-- Response of `POST /api/upload`: 200 with the `fileId`, or 500. -/
inductive UploadResult where
  | ok (fileId : String)
  | serverError
deriving Repr, DecidableEq

/-- HTTP status code of an upload response. -/
def UploadResult.status : UploadResult → Nat
  | UploadResult.ok _ => 200
  | UploadResult.serverError => 500

/-- Response of `GET /api/download/:fileId`: 400 when the passphrase is
missing, 404 when the metadata item is absent, 500 on a thrown error, or
200 with the decrypted bytes and the stored content type and file name. -/
inductive DownloadResult where
  | validationError
  | notFound
  | serverError
  | file (data : List Nat) (contentType : String) (fileName : String)
deriving Repr, DecidableEq

/-- HTTP status code of a download response. -/
def DownloadResult.status : DownloadResult → Nat
  | DownloadResult.validationError => 400
  | DownloadResult.notFound => 404
  | DownloadResult.serverError => 500
  | DownloadResult.file _ _ _ => 200

/-- Response of `DELETE /api/files/:fileId`. -/
inductive DeleteResult where
  | deleted
  | notFound
  | serverError
deriving Repr, DecidableEq

/-- HTTP status code of a delete response. -/
def DeleteResult.status : DeleteResult → Nat
  | DeleteResult.deleted => 200
  | DeleteResult.notFound => 404
  | DeleteResult.serverError => 500

/-- Response of `GET /api/files`. -/
inductive ListResult where
  | files (items : List FileRecord)
  | serverError
deriving Repr, DecidableEq

/-- `POST /api/upload` (`server.js` lines 94-145).  The generated
`uuidv4()` file id, the random `iv`, the audit recorder's `logId` and
timestamp, and the `uploadedAt` timestamp are explicit parameters.  The
passphrase defaults via `req.body.encryptionKey || 'default-password'`;
the blob goes to S3 under `files/{fileId}` before the metadata item is
written; either store failure is caught as the 500 response. -/
def uploadHandler (f : Faults) (file : UploadedFile)
    (encryptionKey : Option String) (fileId : String) (iv : List Nat)
    (logId timestamp uploadedAt : String) (st : AwsState) :
    UploadResult × AwsState × List StoreAccess :=
  let key := jsOr encryptionKey "default-password"
  let encryptedBuffer := encryptFile file.buffer key iv
  let t1 := [StoreAccess.s3Put (s!"files/{fileId}")]
  match s3Upload f.s3UploadFails st.s3Objects (s!"files/{fileId}")
      encryptedBuffer with
  | Except.error _ => (UploadResult.serverError, st, t1)
  | Except.ok objects =>
    let st1 := { st with s3Objects := objects }
    let record : FileRecord :=
      ⟨fileId, file.originalname, file.mimetype, file.size, uploadedAt, true⟩
    let t2 := t1 ++ [StoreAccess.dynamoPut "FileMetadata"]
    match dynamoPutFile f.dynamoPutFails st1.fileMetadata record with
    | Except.error _ => (UploadResult.serverError, st1, t2)
    | Except.ok metadata =>
      let st2 := { st1 with fileMetadata := metadata }
      let logged := logActivity f logId timestamp "FILE_UPLOAD"
        ⟨some fileId, some file.originalname, some file.size, none⟩ st2
      (UploadResult.ok fileId, logged.1, t2 ++ logged.2)

/-- `GET /api/download/:fileId` (`server.js` lines 148-200).  The
`encryptionKey` query parameter is checked for truthiness before any store
access; then the metadata point lookup, the S3 fetch, the decryption and
the audit write, with any thrown error caught as the 500 response. -/
def downloadHandler (f : Faults) (fileId : String)
    (encryptionKey : Option String) (logId timestamp : String)
    (st : AwsState) : DownloadResult × AwsState × List StoreAccess :=
  if jsFalsy encryptionKey then
    (DownloadResult.validationError, st, [])
  else
    let key := jsOr encryptionKey ""
    let t1 := [StoreAccess.dynamoGet "FileMetadata" fileId]
    match dynamoGetFile f.dynamoGetFails st.fileMetadata fileId with
    | Except.error _ => (DownloadResult.serverError, st, t1)
    | Except.ok none => (DownloadResult.notFound, st, t1)
    | Except.ok (some record) =>
      let t2 := t1 ++ [StoreAccess.s3Get (s!"files/{fileId}")]
      match s3GetObject f.s3GetFails st.s3Objects (s!"files/{fileId}") with
      | Except.error _ => (DownloadResult.serverError, st, t2)
      | Except.ok body =>
        match decryptFile body key with
        | Except.error _ => (DownloadResult.serverError, st, t2)
        | Except.ok plaintext =>
          let logged := logActivity f logId timestamp "FILE_DOWNLOAD"
            ⟨some fileId, some record.fileName, none, none⟩ st
          (DownloadResult.file plaintext record.contentType record.fileName,
            logged.1, t2 ++ logged.2)

/-- `GET /api/files` (`server.js` lines 203-225): scan the `FileMetadata`
table, record `LIST_FILES` with the count, return the items. -/
def listHandler (f : Faults) (logId timestamp : String) (st : AwsState) :
    ListResult × AwsState × List StoreAccess :=
  let t1 := [StoreAccess.dynamoScan "FileMetadata"]
  match dynamoScanFiles f.dynamoScanFails st.fileMetadata with
  | Except.error _ => (ListResult.serverError, st, t1)
  | Except.ok items =>
    let logged := logActivity f logId timestamp "LIST_FILES"
      ⟨none, none, none, some items.length⟩ st
    (ListResult.files items, logged.1, t1 ++ logged.2)

/-- `DELETE /api/files/:fileId` (`server.js` lines 228-275): metadata point
lookup (404 when absent), S3 delete, metadata delete, audit write; any
thrown error is caught as the 500 response. -/
def deleteHandler (f : Faults) (fileId : String) (logId timestamp : String)
    (st : AwsState) : DeleteResult × AwsState × List StoreAccess :=
  let t1 := [StoreAccess.dynamoGet "FileMetadata" fileId]
  match dynamoGetFile f.dynamoGetFails st.fileMetadata fileId with
  | Except.error _ => (DeleteResult.serverError, st, t1)
  | Except.ok none => (DeleteResult.notFound, st, t1)
  | Except.ok (some record) =>
    let t2 := t1 ++ [StoreAccess.s3Delete (s!"files/{fileId}")]
    match s3DeleteObject f.s3DeleteFails st.s3Objects (s!"files/{fileId}") with
    | Except.error _ => (DeleteResult.serverError, st, t2)
    | Except.ok objects =>
      let st1 := { st with s3Objects := objects }
      let t3 := t2 ++ [StoreAccess.dynamoDelete "FileMetadata" fileId]
      match dynamoDeleteFile f.dynamoDeleteFails st1.fileMetadata fileId with
      | Except.error _ => (DeleteResult.serverError, st1, t3)
      | Except.ok metadata =>
        let st2 := { st1 with fileMetadata := metadata }
        let logged := logActivity f logId timestamp "FILE_DELETE"
          ⟨some fileId, some record.fileName, none, none⟩ st2
        (DeleteResult.deleted, logged.1, t3 ++ logged.2)

/-- Override only the two audit-write fault flags of a fault assignment,
leaving the data-path flags unchanged. -/
def setAuditFaults (f : Faults) (cw dl : Bool) : Faults :=
  { f with cloudWatchFails := cw, dynamoLogFails := dl }

/-- The data-path portion of the store state: the blob store contents and
the `FileMetadata` table, excluding the audit trail. -/
def dataView (st : AwsState) :
    List (String × List Nat) × List (String × FileRecord) :=
  (st.s3Objects, st.fileMetadata)

/-! ## Concrete sample inputs for closed instances -/

/-- A sample multer file: 3 plaintext bytes. -/
def wFile : UploadedFile := ⟨"report.pdf", "application/pdf", [1, 2, 3]⟩

/-- The empty state of the external stores. -/
def emptyState : AwsState := ⟨[], [], [], []⟩

/-- A concrete all-zero 16-byte initialization value. -/
def zeroIV : List Nat := List.replicate 16 0

/-! ## Basic cipher lemmas -/

lemma ctrKeystream_length (key iv : List Nat) (n : Nat) :
    (ctrKeystream key iv n).length = n := by
  simp [ctrKeystream]

lemma ctrTransform_length (key iv data : List Nat) :
    (ctrTransform key iv data).length = data.length := by
  simp [ctrTransform, ctrKeystream_length]

lemma zipWith_xor_cancel (P s : List Nat) (h : P.length ≤ s.length) :
    List.zipWith Nat.xor (List.zipWith Nat.xor P s) s = P := by
  induction P generalizing s with
  | nil => simp
  | cons p ps ih =>
    cases s with
    | nil => simp at h
    | cons a as =>
      simp only [List.zipWith_cons_cons, List.cons.injEq]
      refine ⟨?_, ih as (by simpa using h)⟩
      exact Nat.xor_cancel_right a p

lemma ctrTransform_involutive (key iv data : List Nat) :
    ctrTransform key iv (ctrTransform key iv data) = data := by
  unfold ctrTransform
  rw [List.length_zipWith, ctrKeystream_length, Nat.min_self]
  exact zipWith_xor_cancel data (ctrKeystream key iv data.length)
    (by rw [ctrKeystream_length])

lemma logActivity_fileMetadata (f : Faults) (logId timestamp action : String)
    (details : LogDetails) (st : AwsState) :
    (logActivity f logId timestamp action details st).1.fileMetadata =
      st.fileMetadata := by
  unfold logActivity cwPutLogEvents dynamoPutLog
  cases f.cloudWatchFails <;> cases f.dynamoLogFails <;> simp

lemma logActivity_s3Objects (f : Faults) (logId timestamp action : String)
    (details : LogDetails) (st : AwsState) :
    (logActivity f logId timestamp action details st).1.s3Objects =
      st.s3Objects := by
  unfold logActivity cwPutLogEvents dynamoPutLog
  cases f.cloudWatchFails <;> cases f.dynamoLogFails <;> simp

lemma logActivity_trace (f : Faults) (logId timestamp action : String)
    (details : LogDetails) (st : AwsState) :
    (logActivity f logId timestamp action details st).2 =
      [StoreAccess.cloudWatchPut, StoreAccess.dynamoPut "ActivityLogs"] :=
  rfl

lemma uploadHandler_audit_irrel (f : Faults) (cw dl : Bool)
    (file : UploadedFile) (enc : Option String) (fileId : String)
    (iv : List Nat) (logId timestamp uploadedAt : String) (st : AwsState) :
    (uploadHandler (setAuditFaults f cw dl) file enc fileId iv logId
        timestamp uploadedAt st).1 =
      (uploadHandler f file enc fileId iv logId timestamp uploadedAt st).1 ∧
    dataView (uploadHandler (setAuditFaults f cw dl) file enc fileId iv
        logId timestamp uploadedAt st).2.1 =
      dataView (uploadHandler f file enc fileId iv logId timestamp
        uploadedAt st).2.1 := by
  unfold uploadHandler
  simp only [setAuditFaults]
  constructor <;> (repeat' split) <;>
    simp [dataView, logActivity_fileMetadata, logActivity_s3Objects]

lemma downloadHandler_audit_irrel (f : Faults) (cw dl : Bool)
    (fileId : String) (key : Option String) (logId timestamp : String)
    (st : AwsState) :
    (downloadHandler (setAuditFaults f cw dl) fileId key logId timestamp
        st).1 =
      (downloadHandler f fileId key logId timestamp st).1 ∧
    dataView (downloadHandler (setAuditFaults f cw dl) fileId key logId
        timestamp st).2.1 =
      dataView (downloadHandler f fileId key logId timestamp st).2.1 := by
  unfold downloadHandler
  cases hk : jsFalsy key with
  | true => simp [hk]
  | false =>
    simp only [hk, Bool.false_eq_true, if_false, setAuditFaults]
    constructor <;> (repeat' split) <;>
      simp [dataView, logActivity_fileMetadata, logActivity_s3Objects]

lemma deleteHandler_audit_irrel (f : Faults) (cw dl : Bool)
    (fileId : String) (logId timestamp : String) (st : AwsState) :
    (deleteHandler (setAuditFaults f cw dl) fileId logId timestamp st).1 =
      (deleteHandler f fileId logId timestamp st).1 ∧
    dataView (deleteHandler (setAuditFaults f cw dl) fileId logId timestamp
        st).2.1 =
      dataView (deleteHandler f fileId logId timestamp st).2.1 := by
  unfold deleteHandler
  simp only [setAuditFaults]
  constructor <;> (repeat' split) <;>
    simp [dataView, logActivity_fileMetadata, logActivity_s3Objects]

/-! ## Claim theorems -/

/-- C3: for every `fileId`, a download request with no `encryptionKey`
query parameter returns the 400 validation response, leaves every store
untouched, and issues no store access at all. -/
theorem download_missing_key_validation (f : Faults)
    (fileId logId timestamp : String) (st : AwsState) :
    downloadHandler f fileId none logId timestamp st =
      (DownloadResult.validationError, st, ([] : List StoreAccess)) ∧
    DownloadResult.status DownloadResult.validationError = 400 :=
  ⟨rfl, rfl⟩

/-- C4: for every `fileId` with no item in the `FileMetadata` table, a
download with a passphrase supplied and a delete both return the 404
not-found response after only the metadata point lookup, changing neither
the blob store nor the metadata store (the entire state is unchanged). -/
theorem download_delete_unknown_fileId (f : Faults)
    (fileId key logId timestamp : String) (st : AwsState)
    (hk : jsFalsy (some key) = false)
    (hf : f.dynamoGetFails = false)
    (hm : st.fileMetadata.lookup fileId = none) :
    downloadHandler f fileId (some key) logId timestamp st =
      (DownloadResult.notFound, st,
        [StoreAccess.dynamoGet "FileMetadata" fileId]) ∧
    deleteHandler f fileId logId timestamp st =
      (DeleteResult.notFound, st,
        [StoreAccess.dynamoGet "FileMetadata" fileId]) ∧
    DownloadResult.status DownloadResult.notFound = 404 ∧
    DeleteResult.status DeleteResult.notFound = 404 := by
  refine ⟨?_, ?_, rfl, rfl⟩
  · simp [downloadHandler, hk, dynamoGetFile, hf, hm]
  · simp [deleteHandler, dynamoGetFile, hf, hm]

/-- Witness for C4: the unknown id `"missing"` against the empty store
state, with the passphrase `"secret"` and no injected faults. -/
theorem download_delete_unknown_fileId_witness :
    jsFalsy (some "secret") = false ∧
    noFaults.dynamoGetFails = false ∧
    (AwsState.mk [] [] [] []).fileMetadata.lookup "missing" = none ∧
    (downloadHandler noFaults "missing" (some "secret") "lid" "ts"
        (AwsState.mk [] [] [] []) =
      (DownloadResult.notFound, AwsState.mk [] [] [] [],
        [StoreAccess.dynamoGet "FileMetadata" "missing"]) ∧
    deleteHandler noFaults "missing" "lid" "ts" (AwsState.mk [] [] [] []) =
      (DeleteResult.notFound, AwsState.mk [] [] [] [],
        [StoreAccess.dynamoGet "FileMetadata" "missing"]) ∧
    DownloadResult.status DownloadResult.notFound = 404 ∧
    DeleteResult.status DeleteResult.notFound = 404) :=
  ⟨rfl, rfl, rfl,
    download_delete_unknown_fileId noFaults "missing" "secret" "lid" "ts"
      (AwsState.mk [] [] [] []) rfl rfl rfl⟩

/-- C5: an upload with no `encryptionKey` field behaves exactly like an
upload with the explicit passphrase `'default-password'` (it is not
rejected), and with no faults the blob stored under `files/{fileId}` is
the encryption of the plaintext under `'default-password'`. -/
theorem upload_missing_key_default (f : Faults) (file : UploadedFile)
    (fileId : String) (iv : List Nat)
    (logId timestamp uploadedAt : String) (st : AwsState) :
    uploadHandler f file none fileId iv logId timestamp uploadedAt st =
      uploadHandler f file (some "default-password") fileId iv logId
        timestamp uploadedAt st ∧
    jsOr none "default-password" = "default-password" ∧
    (uploadHandler noFaults file none fileId iv logId timestamp uploadedAt
          st).2.1.s3Objects.lookup (s!"files/{fileId}") =
      some (encryptFile file.buffer "default-password" iv) := by
  refine ⟨?_, rfl, ?_⟩
  · have hk : jsOr none "default-password" =
        jsOr (some "default-password") "default-password" := rfl
    simp only [uploadHandler]
    rw [hk]
  · simp [uploadHandler, noFaults, s3Upload, dynamoPutFile, logActivity,
      cwPutLogEvents, dynamoPutLog, putAssoc, jsOr]

/-- C9: an upload whose `encryptionKey` field is the empty string is
treated the same as a missing field — `req.body.encryptionKey ||
'default-password'` tests falsiness, not absence — so the file is
encrypted under `'default-password'`. -/
theorem upload_empty_key_default (f : Faults) (file : UploadedFile)
    (fileId : String) (iv : List Nat)
    (logId timestamp uploadedAt : String) (st : AwsState) :
    uploadHandler f file (some "") fileId iv logId timestamp uploadedAt st =
      uploadHandler f file none fileId iv logId timestamp uploadedAt st ∧
    jsOr (some "") "default-password" = "default-password" := by
  refine ⟨?_, rfl⟩
  have hk : jsOr (some "") "default-password" =
      jsOr none "default-password" := rfl
  simp only [uploadHandler]
  rw [hk]

/-- C7: a successful upload of an `n`-byte plaintext writes a
`FileMetadata` item whose `size` is `n` — the plaintext length captured
before encryption, not the ciphertext length `n + 16` — and whose
`encrypted` flag is `true`; the record is then returned by the list
endpoint. -/
theorem upload_record_plaintext_size (f : Faults) (file : UploadedFile)
    (enc : Option String) (fileId : String) (iv : List Nat)
    (logId timestamp uploadedAt logId2 timestamp2 : String) (st : AwsState)
    (hs : f.s3UploadFails = false) (hd : f.dynamoPutFails = false)
    (hscan : f.dynamoScanFails = false) (hiv : iv.length = 16) :
    UploadResult.ok fileId =
      (uploadHandler f file enc fileId iv logId timestamp uploadedAt st).1 ∧
    (uploadHandler f file enc fileId iv logId timestamp uploadedAt
        st).2.1.fileMetadata.lookup fileId =
      some (FileRecord.mk fileId file.originalname file.mimetype
        file.buffer.length uploadedAt true) ∧
    (encryptFile file.buffer (jsOr enc "default-password") iv).length =
      file.buffer.length + 16 ∧
    (∃ items,
      (listHandler f logId2 timestamp2
          (uploadHandler f file enc fileId iv logId timestamp uploadedAt
            st).2.1).1 = ListResult.files items ∧
      FileRecord.mk fileId file.originalname file.mimetype
        file.buffer.length uploadedAt true ∈ items) := by
  refine ⟨?_, ?_, ?_, ?_⟩
  · simp [uploadHandler, s3Upload, dynamoPutFile, hs, hd]
  · simp [uploadHandler, s3Upload, dynamoPutFile, hs, hd,
      logActivity_fileMetadata, putAssoc, UploadedFile.size, List.lookup]
  · simp [encryptFile, ctrTransform_length, hiv, Nat.add_comm]
  · simp [uploadHandler, s3Upload, dynamoPutFile, hs, hd, listHandler,
      dynamoScanFiles, hscan, logActivity_fileMetadata, putAssoc,
      UploadedFile.size]

/-- Witness for C7: uploading the 3-byte sample file `"report.pdf"` with
no faults writes a record of size 3 (not 19) with `encrypted = true`,
which the list endpoint returns. -/
theorem upload_record_plaintext_size_witness :
    noFaults.s3UploadFails = false ∧ noFaults.dynamoPutFails = false ∧
    noFaults.dynamoScanFails = false ∧ zeroIV.length = 16 ∧
    (UploadResult.ok "fid" =
        (uploadHandler noFaults wFile none "fid" zeroIV "lid" "ts" "up"
          emptyState).1 ∧
      (uploadHandler noFaults wFile none "fid" zeroIV "lid" "ts" "up"
          emptyState).2.1.fileMetadata.lookup "fid" =
        some (FileRecord.mk "fid" wFile.originalname wFile.mimetype
          wFile.buffer.length "up" true) ∧
      (encryptFile wFile.buffer (jsOr none "default-password")
          zeroIV).length = wFile.buffer.length + 16 ∧
      (∃ items,
        (listHandler noFaults "lid2" "ts2"
            (uploadHandler noFaults wFile none "fid" zeroIV "lid" "ts" "up"
              emptyState).2.1).1 = ListResult.files items ∧
        FileRecord.mk "fid" wFile.originalname wFile.mimetype
          wFile.buffer.length "up" true ∈ items)) :=
  ⟨rfl, rfl, rfl, by decide,
    upload_record_plaintext_size noFaults wFile none "fid" zeroIV "lid" "ts"
      "up" "lid2" "ts2" emptyState rfl rfl rfl (by decide)⟩

/-- C8: upload writes the encrypted blob to S3 under `files/{fileId}`
strictly before the `FileMetadata` put — the trace of attempted store
calls is one of three lists, in each of which the S3 put comes first and
any `FileMetadata` put second — so for a fresh `fileId`, in the final
state of an upload that fails at any step, the metadata store never holds
a record for `fileId` without the corresponding blob in the blob store. -/
theorem upload_blob_before_metadata (f : Faults) (file : UploadedFile)
    (enc : Option String) (fileId : String) (iv : List Nat)
    (logId timestamp uploadedAt : String) (st : AwsState)
    (hfresh : st.fileMetadata.lookup fileId = none) :
    (∀ record,
      (uploadHandler f file enc fileId iv logId timestamp uploadedAt
          st).2.1.fileMetadata.lookup fileId = some record →
      ((uploadHandler f file enc fileId iv logId timestamp uploadedAt
          st).2.1.s3Objects.lookup (s!"files/{fileId}")).isSome = true) ∧
    ((uploadHandler f file enc fileId iv logId timestamp uploadedAt
          st).2.2 = [StoreAccess.s3Put (s!"files/{fileId}")] ∨
      (uploadHandler f file enc fileId iv logId timestamp uploadedAt
          st).2.2 = [StoreAccess.s3Put (s!"files/{fileId}"),
            StoreAccess.dynamoPut "FileMetadata"] ∨
      (uploadHandler f file enc fileId iv logId timestamp uploadedAt
          st).2.2 = [StoreAccess.s3Put (s!"files/{fileId}"),
            StoreAccess.dynamoPut "FileMetadata", StoreAccess.cloudWatchPut,
            StoreAccess.dynamoPut "ActivityLogs"]) := by
  cases hs : f.s3UploadFails with
  | true =>
    have hchar : uploadHandler f file enc fileId iv logId timestamp
        uploadedAt st =
        (UploadResult.serverError, st,
          [StoreAccess.s3Put (s!"files/{fileId}")]) := by
      simp [uploadHandler, s3Upload, hs]
    rw [hchar]
    refine ⟨fun record hrec => ?_, Or.inl rfl⟩
    rw [hfresh] at hrec
    cases hrec
  | false =>
    cases hd : f.dynamoPutFails with
    | true =>
      have hchar : uploadHandler f file enc fileId iv logId timestamp
          uploadedAt st =
          (UploadResult.serverError,
            AwsState.mk
              (putAssoc (s!"files/{fileId}")
                (encryptFile file.buffer (jsOr enc "default-password") iv)
                st.s3Objects)
              st.fileMetadata st.activityLogs st.cloudWatch,
            [StoreAccess.s3Put (s!"files/{fileId}"),
              StoreAccess.dynamoPut "FileMetadata"]) := by
        simp [uploadHandler, s3Upload, dynamoPutFile, hs, hd]
      rw [hchar]
      refine ⟨fun record hrec => ?_, Or.inr (Or.inl rfl)⟩
      simp only at hrec
      rw [hfresh] at hrec
      cases hrec
    | false =>
      have h1 : (uploadHandler f file enc fileId iv logId timestamp
          uploadedAt st).2.1.s3Objects =
          putAssoc (s!"files/{fileId}")
            (encryptFile file.buffer (jsOr enc "default-password") iv)
            st.s3Objects := by
        simp [uploadHandler, s3Upload, dynamoPutFile, hs, hd,
          logActivity_s3Objects]
      have h2 : (uploadHandler f file enc fileId iv logId timestamp
          uploadedAt st).2.2 =
          [StoreAccess.s3Put (s!"files/{fileId}"),
            StoreAccess.dynamoPut "FileMetadata", StoreAccess.cloudWatchPut,
            StoreAccess.dynamoPut "ActivityLogs"] := by
        simp [uploadHandler, s3Upload, dynamoPutFile, hs, hd,
          logActivity_trace]
      refine ⟨fun record hrec => ?_, Or.inr (Or.inr h2)⟩
      rw [h1]
      simp [putAssoc]

/-- Witness for C8: the no-fault upload of the sample file into the empty
store state. -/
theorem upload_blob_before_metadata_witness :
    emptyState.fileMetadata.lookup "fid" = none ∧
    ((∀ record,
      (uploadHandler noFaults wFile none "fid" zeroIV "lid" "ts" "up"
          emptyState).2.1.fileMetadata.lookup "fid" = some record →
      ((uploadHandler noFaults wFile none "fid" zeroIV "lid" "ts" "up"
          emptyState).2.1.s3Objects.lookup (s!"files/fid")).isSome = true) ∧
    ((uploadHandler noFaults wFile none "fid" zeroIV "lid" "ts" "up"
          emptyState).2.2 = [StoreAccess.s3Put (s!"files/fid")] ∨
      (uploadHandler noFaults wFile none "fid" zeroIV "lid" "ts" "up"
          emptyState).2.2 = [StoreAccess.s3Put (s!"files/fid"),
            StoreAccess.dynamoPut "FileMetadata"] ∨
      (uploadHandler noFaults wFile none "fid" zeroIV "lid" "ts" "up"
          emptyState).2.2 = [StoreAccess.s3Put (s!"files/fid"),
            StoreAccess.dynamoPut "FileMetadata", StoreAccess.cloudWatchPut,
            StoreAccess.dynamoPut "ActivityLogs"])) :=
  ⟨rfl,
    upload_blob_before_metadata noFaults wFile none "fid" zeroIV "lid" "ts"
      "up" emptyState rfl⟩

/-- C6: the audit recorder never raises to its caller — `logActivity` is a
total function on every fault combination, and it never touches the blob
store or the `FileMetadata` table — and a failure of the CloudWatch write,
of the `ActivityLogs` write, or of both changes neither the response nor
the resulting data stores of upload, download, or delete: the outcomes
under any two assignments of the two audit fault flags coincide. -/
theorem audit_failures_harmless (f : Faults) (cw dl cw2 dl2 : Bool)
    (action : String) (details : LogDetails) (file : UploadedFile)
    (enc key : Option String) (upId dfId delId : String) (iv : List Nat)
    (logId timestamp uploadedAt : String) (st : AwsState) :
    dataView (logActivity (setAuditFaults f cw dl) logId timestamp action
      details st).1 = dataView st ∧
    (uploadHandler (setAuditFaults f cw dl) file enc upId iv logId timestamp
        uploadedAt st).1 =
      (uploadHandler (setAuditFaults f cw2 dl2) file enc upId iv logId
        timestamp uploadedAt st).1 ∧
    dataView (uploadHandler (setAuditFaults f cw dl) file enc upId iv logId
        timestamp uploadedAt st).2.1 =
      dataView (uploadHandler (setAuditFaults f cw2 dl2) file enc upId iv
        logId timestamp uploadedAt st).2.1 ∧
    (downloadHandler (setAuditFaults f cw dl) dfId key logId timestamp
        st).1 =
      (downloadHandler (setAuditFaults f cw2 dl2) dfId key logId timestamp
        st).1 ∧
    dataView (downloadHandler (setAuditFaults f cw dl) dfId key logId
        timestamp st).2.1 =
      dataView (downloadHandler (setAuditFaults f cw2 dl2) dfId key logId
        timestamp st).2.1 ∧
    (deleteHandler (setAuditFaults f cw dl) delId logId timestamp st).1 =
      (deleteHandler (setAuditFaults f cw2 dl2) delId logId timestamp
        st).1 ∧
    dataView (deleteHandler (setAuditFaults f cw dl) delId logId timestamp
        st).2.1 =
      dataView (deleteHandler (setAuditFaults f cw2 dl2) delId logId
        timestamp st).2.1 := by
  refine ⟨?_, ?_, ?_, ?_, ?_, ?_, ?_⟩
  · simp [dataView, logActivity_fileMetadata, logActivity_s3Objects]
  · exact (uploadHandler_audit_irrel f cw dl file enc upId iv logId
      timestamp uploadedAt st).1.trans
      (uploadHandler_audit_irrel f cw2 dl2 file enc upId iv logId timestamp
        uploadedAt st).1.symm
  · exact (uploadHandler_audit_irrel f cw dl file enc upId iv logId
      timestamp uploadedAt st).2.trans
      (uploadHandler_audit_irrel f cw2 dl2 file enc upId iv logId timestamp
        uploadedAt st).2.symm
  · exact (downloadHandler_audit_irrel f cw dl dfId key logId timestamp
      st).1.trans
      (downloadHandler_audit_irrel f cw2 dl2 dfId key logId timestamp
        st).1.symm
  · exact (downloadHandler_audit_irrel f cw dl dfId key logId timestamp
      st).2.trans
      (downloadHandler_audit_irrel f cw2 dl2 dfId key logId timestamp
        st).2.symm
  · exact (deleteHandler_audit_irrel f cw dl delId logId timestamp
      st).1.trans
      (deleteHandler_audit_irrel f cw2 dl2 delId logId timestamp st).1.symm
  · exact (deleteHandler_audit_irrel f cw dl delId logId timestamp
      st).2.trans
      (deleteHandler_audit_irrel f cw2 dl2 delId logId timestamp st).2.symm

/-- C1: for every plaintext byte sequence `P`, every passphrase `K` and
every 16-byte initialization value, decrypting the result of encrypting
`P` under `K` with the same passphrase returns exactly `P`: `encryptFile`
derives the key from `K` via scrypt with the constant salt `'salt'`,
prefixes the fresh 16-byte initialization value, and applies AES-256-CTR,
and `decryptFile` splits off the leading 16 bytes and inverts the
transform. -/
theorem decrypt_encrypt_roundtrip (P : List Nat) (K : String) (iv : List Nat)
    (h : iv.length = 16) :
    decryptFile (encryptFile P K iv) K = Except.ok P := by
  unfold decryptFile encryptFile
  have htake : (iv ++ ctrTransform (scryptSync K "salt" 32) iv P).take 16 = iv := by
    rw [← h, List.take_left]
  have hdrop : (iv ++ ctrTransform (scryptSync K "salt" 32) iv P).drop 16 =
      ctrTransform (scryptSync K "salt" 32) iv P := by
    rw [← h, List.drop_left]
  rw [htake, hdrop, if_pos h, ctrTransform_involutive]

/-- Witness for C1: the concrete round trip of plaintext `[1, 2, 3]` under
passphrase `"secret"` with an all-zero initialization value. -/
theorem decrypt_encrypt_roundtrip_witness :
    (List.replicate 16 0).length = 16 ∧
    decryptFile (encryptFile [1, 2, 3] "secret" (List.replicate 16 0))
      "secret" = Except.ok [1, 2, 3] :=
  ⟨by decide,
    decrypt_encrypt_roundtrip [1, 2, 3] "secret" (List.replicate 16 0)
      (by decide)⟩

/-- C2: `decryptFile` raises if and only if the blob is shorter than the
16-byte initialization-value length — for every blob of fewer than 16
bytes and every passphrase it fails (with the error the spec calls
`DecryptionError`), and for every blob of at least 16 bytes and every
passphrase (including a wrong one) it returns a byte sequence without
raising. -/
theorem decryptFile_error_iff_short (B : List Nat) (K : String) :
    ((∃ e, decryptFile B K = Except.error e) ↔ B.length < 16) ∧
    ((∃ out, decryptFile B K = Except.ok out) ↔ 16 ≤ B.length) := by
  have hlen : (B.take 16).length = min 16 B.length := List.length_take 16 B
  unfold decryptFile
  by_cases h : (B.take 16).length = 16
  · have h16 : 16 ≤ B.length := by rw [hlen] at h; omega
    rw [if_pos h]
    simp [h16, Nat.not_lt.mpr h16]
  · have h16 : B.length < 16 := by rw [hlen] at h; omega
    rw [if_neg h]
    simp only [h16, Nat.not_le.mpr h16, iff_true, iff_false]
    refine ⟨⟨CryptoError.invalidIV, by simp⟩, ?_⟩
    rintro ⟨out, hout⟩
    cases hout

/-- C10: the cipher is length-transparent — encryption adds exactly the 16
initialization-value bytes, decryption of any blob of at least 16 bytes
removes exactly 16 bytes, and a blob of exactly 16 bytes decrypts to the
empty byte sequence. -/
theorem cipher_length_transparent (P B iv : List Nat) (K : String)
    (hiv : iv.length = 16) (hB : 16 ≤ B.length) :
    (encryptFile P K iv).length = P.length + 16 ∧
    (∃ out, decryptFile B K = Except.ok out ∧ out.length = B.length - 16) ∧
    (B.length = 16 → decryptFile B K = Except.ok []) := by
  have htake : (B.take 16).length = 16 := by rw [List.length_take]; omega
  refine ⟨?_, ?_, ?_⟩
  · simp [encryptFile, ctrTransform_length, hiv, Nat.add_comm]
  · refine ⟨ctrTransform (scryptSync K "salt" 32) (B.take 16) (B.drop 16),
      ?_, ?_⟩
    · unfold decryptFile
      rw [if_pos htake]
    · rw [ctrTransform_length, List.length_drop]
  · intro h16
    have hd : B.drop 16 = [] := List.drop_eq_nil_of_le (by omega)
    unfold decryptFile
    rw [if_pos htake, hd]
    simp [ctrTransform]

/-- Witness for C10: plaintext `[7]` encrypts to 17 bytes, and the 17-byte
blob `List.replicate 17 3` decrypts to a 1-byte output, under concrete
passphrases and an all-zero initialization value. -/
theorem cipher_length_transparent_witness :
    (List.replicate 16 0).length = 16 ∧ 16 ≤ (List.replicate 17 3).length ∧
    ((encryptFile [7] "pw" (List.replicate 16 0)).length = 1 + 16 ∧
      (∃ out, decryptFile (List.replicate 17 3) "pw" = Except.ok out ∧
        out.length = (List.replicate 17 3).length - 16) ∧
      ((List.replicate 17 3).length = 16 →
        decryptFile (List.replicate 17 3) "pw" = Except.ok [])) :=
  ⟨by decide, by decide,
    cipher_length_transparent [7] (List.replicate 17 3) (List.replicate 16 0)
      "pw" (by decide) (by decide)⟩

end Cypherlink
